import Mathlib

/-!
Verification of the tennis-coach swing analysis core against its
natural-language specification.

The development shallowly embeds the three core modules:
  * `evaluateMetrics`   from src/lib/feedback.ts
  * `TennisMetricsCalculator` from src/lib/tennis-metrics.ts
  * the swing-detector frame loop (`onFrame`) from src/hooks/useTennisCoach.ts

JS `number` values are modelled as `ℚ` where the source only performs
field arithmetic and comparisons (the feedback evaluator), and as `ℝ`
where the source uses `Math.sqrt` / `Math.acos` / `Math.atan2`
(the metrics calculator and the detector).  `Math.round` is modelled as
`⌊x + 1/2⌋` (JavaScript rounds half toward +∞, also for negatives).
-/

namespace TennisCoach

/-- JS `Math.round`: round half toward +∞, on rationals. -/
def mathRound (q : ℚ) : ℤ := ⌊q + 1/2⌋

/-- `Metrics.contactMetrics` record (src/lib/types.ts shape, as consumed by
feedback.ts).  Numeric fields are rationals. -/
structure ContactMetrics where
  distanceFromCore : ℚ
  armAngle : ℚ
  isFrontContact : Bool
deriving DecidableEq

/-- The `Metrics` record (src/lib/types.ts shape, as consumed by feedback.ts). -/
structure Metrics where
  maxShoulderTurn : ℚ
  peakArmSpeed : ℚ
  contactMetrics : ContactMetrics
  swingRhythm : ℚ
deriving DecidableEq

/-- `FeedbackResult` from src/lib/feedback.ts. -/
structure FeedbackResult where
  score : ℤ
  feedback : String
deriving DecidableEq

/-- "动作不错，继续保持！" — the initial value of `feedback` in the source;
it is always overwritten by the if/else chain, which ends in an `else`. -/
def msgDefault : String := "动作不错，继续保持！"

/-- Message for `score > 85`. -/
def msgPowerful : String := "挥拍出色！维持节奏，再接再厉！"

/-- Message for `score > 70`. -/
def msgRotateMore : String := "很好！多转肩，力量更集中！"

/-- Message for `maxShoulderTurn < 50`. -/
def msgInsufficientRotation : String := "转肩不足，试着大幅带动肩膀！"

/-- Message for `distanceFromCore < 40`. -/
def msgExtendArm : String := "伸直手臂，扩大击球距离！"

/-- Message for `speed < 0.4`. -/
def msgTooSlow : String := "加快最后挥拍速度，提升击球质量！"

/-- The final default message. -/
def msgRhythmUneven : String := "节奏略乱，放松肩膀，连贯挥拍！"

/-- `evaluateMetrics` from src/lib/feedback.ts:
shoulder = min(maxShoulderTurn,120)/120, speed = peakArmSpeed/100,
dist = min(distanceFromCore,120)/120, rhythm = swingRhythm/100,
score = round(shoulder*40 + speed*30 + dist*20 + rhythm*10),
then a six-branch if/else chain selects the message. -/
def evaluateMetrics (m : Metrics) : FeedbackResult :=
  let shoulder := min m.maxShoulderTurn 120 / 120
  let speed := m.peakArmSpeed / 100
  let dist := min m.contactMetrics.distanceFromCore 120 / 120
  let rhythm := m.swingRhythm / 100
  let score := mathRound (shoulder * 40 + speed * 30 + dist * 20 + rhythm * 10)
  let feedback :=
    if 85 < score then msgPowerful
    else if 70 < score then msgRotateMore
    else if m.maxShoulderTurn < 50 then msgInsufficientRotation
    else if m.contactMetrics.distanceFromCore < 40 then msgExtendArm
    else if speed < 0.4 then msgTooSlow
    else msgRhythmUneven
  ⟨score, feedback⟩

/-- Modelled from the spec (§4.3): `clamp`. -/
def clamp (x lo hi : ℚ) : ℚ := max lo (min x hi)

/-- Modelled from the spec (§4.3): the specification's composite score
`round(clamp(maxShoulderTurn,0,80)/80*40 + peakArmSpeed/100*30 +
clamp(distanceFromCore,0,120)/120*20 + swingRhythm/100*10)`.
Stated for comparison with the score computed by `evaluateMetrics`. -/
def specScore (m : Metrics) : ℤ :=
  mathRound (clamp m.maxShoulderTurn 0 80 / 80 * 40
    + m.peakArmSpeed / 100 * 30
    + clamp m.contactMetrics.distanceFromCore 0 120 / 120 * 20
    + m.swingRhythm / 100 * 10)

/-- Modelled from the spec (§4.3): the five-entry ordered decision table,
read over the score the code actually computes and the code's shoulder
normalization (the most charitable reading of "normalized shoulder-turn
ratio"): score > 85 → powerful; else score > 70 → rotate more; else
shoulder ratio < 0.5 → insufficient rotation; else speed ratio < 0.4 →
too slow; else rhythm uneven.  Stated for comparison with the table
implemented by `evaluateMetrics`. -/
def specFiveEntryFeedback (m : Metrics) : String :=
  let score := (evaluateMetrics m).score
  if 85 < score then msgPowerful
  else if 70 < score then msgRotateMore
  else if min m.maxShoulderTurn 120 / 120 < 0.5 then msgInsufficientRotation
  else if m.peakArmSpeed / 100 < 0.4 then msgTooSlow
  else msgRhythmUneven

/-- The spec's boundary example input:
`{maxShoulderTurn: 90, peakArmSpeed: 100, distanceFromCore: 130, swingRhythm: 100}`. -/
def mBoundary : Metrics := ⟨90, 100, ⟨130, 0, false⟩, 100⟩

/-- A record with a negative shoulder-turn value, separating the spec's
`clamp(·,0,80)` (lower bound 0) from the code's `min(·,120)` (no lower bound). -/
def mNegTurn : Metrics := ⟨-80, 0, ⟨0, 0, false⟩, 0⟩

/-- A record on which the spec's five-entry table and the code's six-entry
table pick different messages: score is 32, `maxShoulderTurn = 55` is not
below the code's raw threshold 50, but `distanceFromCore = 10 < 40`
selects the extend-arm message, a branch absent from the spec's table. -/
def mTable : Metrics := ⟨55, 40, ⟨10, 0, false⟩, 0⟩

/-!
## Pose data model (src/lib/types.ts shape, tennis-metrics.ts, useTennisCoach.ts)

Coordinates and timestamps are `ℝ` because the source computes with
`Math.sqrt` / `Math.acos` / `Math.atan2`.  A pose's landmark list is read
through `pt`, which yields a landmark with zero coordinates and no
visibility for an out-of-range index; this matches every visibility-guarded
read in the source (an `undefined` entry fails `_areLandmarksVisible`
exactly as the zero-visibility default does), and the unguarded reads in
the detector are only ever performed on full landmarker output.
-/

/-- One pose landmark: normalized coordinates plus optional confidence. -/
structure Landmark where
  x : ℝ
  y : ℝ
  z : ℝ
  visibility : Option ℝ

/-- The default used for an absent landmark list entry. -/
def noLandmark : Landmark := ⟨0, 0, 0, none⟩

/-- A timestamped pose frame. -/
structure Pose where
  ts : ℝ
  points : List Landmark

/-- Landmark access `pose.points[i]` with the absent-entry default. -/
def pt (p : Pose) (i : ℕ) : Landmark := p.points.getD i noLandmark

/-- `lm.visibility ?? 0`. -/
def vis (lm : Landmark) : ℝ := lm.visibility.getD 0

/-- Modelled from the spec and the hook's literal indices: `PoseLandmarkIndex`
lives in src/lib/types.ts, which is not under src/; the hook pins
LEFT_SHOULDER = 11, RIGHT_SHOULDER = 12 and RIGHT_WRIST = 16, and the
remaining values follow the MediaPipe pose-landmark scheme the spec's data
model names (shoulders, elbows, wrists, hips). -/
def LEFT_SHOULDER : ℕ := 11

/-- MediaPipe pose-landmark index of the right shoulder. -/
def RIGHT_SHOULDER : ℕ := 12

/-- MediaPipe pose-landmark index of the left elbow. -/
def LEFT_ELBOW : ℕ := 13

/-- MediaPipe pose-landmark index of the right elbow. -/
def RIGHT_ELBOW : ℕ := 14

/-- MediaPipe pose-landmark index of the left wrist. -/
def LEFT_WRIST : ℕ := 15

/-- MediaPipe pose-landmark index of the right wrist. -/
def RIGHT_WRIST : ℕ := 16

/-- MediaPipe pose-landmark index of the left hip. -/
def LEFT_HIP : ℕ := 23

/-- MediaPipe pose-landmark index of the right hip. -/
def RIGHT_HIP : ℕ := 24

/-- `TennisMetricsCalculator.MIN_VISIBILITY`. -/
def MIN_VISIBILITY : ℝ := 0.4

/-- `_areLandmarksVisible`: every landmark present with
`(visibility ?? 0) > MIN_VISIBILITY` (strict). -/
def landmarksVisible (ls : List Landmark) : Prop :=
  ∀ lm ∈ ls, MIN_VISIBILITY < vis lm

/-- `_calculateDistance`: 3D Euclidean distance. -/
noncomputable def calculateDistance (p1 p2 : Landmark) : ℝ :=
  Real.sqrt ((p1.x - p2.x)^2 + (p1.y - p2.y)^2 + (p1.z - p2.z)^2)

/-- 2D vector as produced by `_calculateVector`. -/
structure Vec2 where
  x : ℝ
  y : ℝ

/-- `_calculateVector from to = {x: to.x - from.x, y: to.y - from.y}`. -/
def calculateVector (p q : Landmark) : Vec2 := ⟨q.x - p.x, q.y - p.y⟩

/-- Planar magnitude `sqrt(v.x*v.x + v.y*v.y)` of a 2D vector. -/
noncomputable def magnitude (v : Vec2) : ℝ := Real.sqrt (v.x * v.x + v.y * v.y)

/-- JS `Math.round` on reals: round half toward +∞. -/
noncomputable def mathRoundR (x : ℝ) : ℤ := ⌊x + 1/2⌋

end TennisCoach

namespace TennisCoach

open scoped Classical

/-- `_calculateAngleBetweenVectors`: clamped-arccos angle in degrees between
two 2D vectors, 0 when either magnitude is zero. -/
noncomputable def calculateAngleBetweenVectors (v1 v2 : Vec2) : ℝ :=
  if magnitude v1 = 0 ∨ magnitude v2 = 0 then 0
  else
    let cosAngle := (v1.x * v2.x + v1.y * v2.y) / (magnitude v1 * magnitude v2)
    Real.arccos (max (-1) (min 1 cosAngle)) * (180 / Real.pi)

/-- `_calculateMaxShoulderTurn`: maximum over visible frames of the angle
between the shoulder line and the hip line, rounded. -/
noncomputable def calculateMaxShoulderTurn (poses : List Pose) : ℤ :=
  mathRoundR (poses.foldl (fun maxTurn pose =>
    if landmarksVisible [pt pose LEFT_SHOULDER, pt pose RIGHT_SHOULDER,
        pt pose LEFT_HIP, pt pose RIGHT_HIP] then
      let angle := calculateAngleBetweenVectors
        (calculateVector (pt pose LEFT_SHOULDER) (pt pose RIGHT_SHOULDER))
        (calculateVector (pt pose LEFT_HIP) (pt pose RIGHT_HIP))
      if maxTurn < angle then angle else maxTurn
    else maxTurn) 0)

/-- The loop body of `_calculatePeakArmSpeed`, generalized over the index of
the tracked wrist (the source fixes it to `RIGHT_WRIST`): walks consecutive
frame pairs carrying `(maxVelocity, peakFrameIndex)`, skipping pairs with
non-positive `dt` and pairs whose wrists are not both visible. -/
noncomputable def peakLoop (wIdx : ℕ) :
    List Pose → ℕ → Pose → ℝ × ℕ → ℝ × ℕ
  | [], _, _, st => st
  | curr :: rest, i, prev, st =>
    let dt := (curr.ts - prev.ts) / 1000
    let st2 :=
      if dt ≤ 0 then st
      else if landmarksVisible [pt prev wIdx, pt curr wIdx] then
        let velocity := calculateDistance (pt prev wIdx) (pt curr wIdx) / dt
        if st.1 < velocity then (velocity, i) else st
      else st
    peakLoop wIdx rest (i + 1) curr st2

/-- Raw `(maxVelocity, peakFrameIndex)` of `_calculatePeakArmSpeed`. -/
noncomputable def peakRaw (wIdx : ℕ) (poses : List Pose) : ℝ × ℕ :=
  match poses with
  | [] => (0, 0)
  | p :: rest => peakLoop wIdx rest 1 p (0, 0)

/-- `_calculatePeakArmSpeed` generalized over the wrist index: converts the
raw maximum velocity to `round(min(100, v*50))` and keeps the peak index. -/
noncomputable def peakArmSpeedAt (wIdx : ℕ) (poses : List Pose) : ℤ × ℕ :=
  (mathRoundR (min 100 ((peakRaw wIdx poses).1 * 50)), (peakRaw wIdx poses).2)

/-- `_calculatePeakArmSpeed` from tennis-metrics.ts: the source hardcodes
`PoseLandmarkIndex.RIGHT_WRIST` for both frames of each pair. -/
noncomputable def calculatePeakArmSpeed (poses : List Pose) : ℤ × ℕ :=
  peakArmSpeedAt RIGHT_WRIST poses

/-- `_getHipCenter`: midpoint of the hips when both are visible, else null.
The returned object carries no visibility field, as in the source. -/
noncomputable def getHipCenter (pose : Pose) : Option Landmark :=
  let leftHip := pt pose LEFT_HIP
  let rightHip := pt pose RIGHT_HIP
  if landmarksVisible [leftHip, rightHip] then
    some ⟨(leftHip.x + rightHip.x) / 2, (leftHip.y + rightHip.y) / 2,
          (leftHip.z + rightHip.z) / 2, none⟩
  else none

/-- `_calculateContactMetrics` at the contact frame: uses the right-side
shoulder/elbow/wrist; zero record when visibility fails or the hip center
is null. -/
noncomputable def calculateContactMetrics (contactFrame : Pose) : ContactMetrics :=
  let shoulder := pt contactFrame RIGHT_SHOULDER
  let elbow := pt contactFrame RIGHT_ELBOW
  let wrist := pt contactFrame RIGHT_WRIST
  let hip := getHipCenter contactFrame
  if ¬ landmarksVisible [shoulder, elbow, wrist] ∨ hip = none then ⟨0, 0, false⟩
  else
    let hipC := hip.getD noLandmark
    ⟨(mathRoundR (calculateDistance hipC wrist * 150) : ℤ),
     (mathRoundR (calculateAngleBetweenVectors
        (calculateVector shoulder elbow) (calculateVector elbow wrist)) : ℤ),
     if wrist.z < shoulder.z then true else false⟩

/-- `_calculateSwingRhythm`: coefficient-of-variation score of the
inter-frame intervals; 0 for fewer than 3 frames. -/
noncomputable def calculateSwingRhythm (poses : List Pose) : ℤ :=
  if poses.length < 3 then 0
  else
    let intervals := List.zipWith (fun c p => c.ts - p.ts) poses.tail poses
    let mean := intervals.sum / intervals.length
    let stdDev := Real.sqrt ((intervals.map (fun x => (x - mean)^2)).sum / intervals.length)
    let cv := if 0 < mean then stdDev / mean else 0
    mathRoundR (max 0 (100 - cv * 200))

/-- `_getEmptyMetrics`. -/
def getEmptyMetrics : Metrics := ⟨0, 0, ⟨0, 0, false⟩, 0⟩

/-- `calculateMetrics` from tennis-metrics.ts.  The source indexes
`poses[contactFrameIndex]` directly; the default frame of `getD` is never
consulted because the peak index is within bounds (claim C10). -/
noncomputable def calculateMetrics (poses : List Pose) : Metrics :=
  if poses.length < 5 then getEmptyMetrics
  else
    let peakArmSpeedData := calculatePeakArmSpeed poses
    let contactFrame := poses.getD peakArmSpeedData.2 ⟨0, []⟩
    { maxShoulderTurn := (calculateMaxShoulderTurn poses : ℚ)
      peakArmSpeed := (peakArmSpeedData.1 : ℚ)
      contactMetrics := calculateContactMetrics contactFrame
      swingRhythm := (calculateSwingRhythm poses : ℚ) }

/-- Modelled from the spec (§4.1): the handedness rule — on the first frame,
the swinging side is the wrist with the higher visibility confidence.  The
source has no such selection; this definition exists to compare the spec's
rule with what the code does. -/
noncomputable def specChosenWristIdx (poses : List Pose) : ℕ :=
  match poses with
  | [] => RIGHT_WRIST
  | p :: _ =>
    if vis (pt p RIGHT_WRIST) < vis (pt p LEFT_WRIST) then LEFT_WRIST
    else RIGHT_WRIST

/-- Modelled from the spec (§4.2, swingRhythm): identical to the code's
computation except that the coefficient of variation is "stdDev/mean, 0 if
mean is 0" — the code tests `mean > 0` instead. -/
noncomputable def specSwingRhythm (poses : List Pose) : ℤ :=
  if poses.length < 3 then 0
  else
    let intervals := List.zipWith (fun c p => c.ts - p.ts) poses.tail poses
    let mean := intervals.sum / intervals.length
    let stdDev := Real.sqrt ((intervals.map (fun x => (x - mean)^2)).sum / intervals.length)
    let cv := if mean = 0 then 0 else stdDev / mean
    mathRoundR (max 0 (100 - cv * 200))

/-!
## Swing detector (`onFrame` in src/hooks/useTennisCoach.ts)

The detector state holds the frame buffer `seq`, the `triggered` flag, the
throttling timestamp `lastTS` and the swing counter.  `onFrame` models one
call of the frame callback for a frame on which the pose landmarker
returned landmarks; the `detecting`/`initialized` guards (session control)
are outside the modelled core.  Emission of `analyze(...)` is returned as
`some frames`.
-/

/-- `MIN_FRAMES` from the hook: collect at least 15 frames, then analyze. -/
def MIN_FRAMES : ℕ := 15

/-- JS `Math.atan2 y x` for non-signed-zero inputs. -/
noncomputable def atan2 (y x : ℝ) : ℝ :=
  if 0 < x then Real.arctan (y / x)
  else if x < 0 then
    (if 0 ≤ y then Real.arctan (y / x) + Real.pi
     else Real.arctan (y / x) - Real.pi)
  else if 0 < y then Real.pi / 2
  else if y < 0 then -(Real.pi / 2)
  else 0

/-- JS `Math.hypot a b`. -/
noncomputable def hypot (a b : ℝ) : ℝ := Real.sqrt (a^2 + b^2)

/-- The hook's `v`: planar wrist speed between the evaluated pair,
`Math.hypot(wrist.x - wristPrev.x, wrist.y - wristPrev.y) / dt` with
`dt = (cur.ts - prev.ts) / 1000`. -/
noncomputable def wristSpeed (prev cur : Pose) : ℝ :=
  hypot ((pt cur RIGHT_WRIST).x - (pt prev RIGHT_WRIST).x)
        ((pt cur RIGHT_WRIST).y - (pt prev RIGHT_WRIST).y)
    / ((cur.ts - prev.ts) / 1000)

/-- The hook's shoulder-line angle `Math.atan2(rS.y - lS.y, rS.x - lS.x)`. -/
noncomputable def shoulderAngle (p : Pose) : ℝ :=
  atan2 ((pt p RIGHT_SHOULDER).y - (pt p LEFT_SHOULDER).y)
        ((pt p RIGHT_SHOULDER).x - (pt p LEFT_SHOULDER).x)

/-- The hook's wrap of the raw angle difference into [-π, π]. -/
noncomputable def wrapAngle (a : ℝ) : ℝ :=
  if Real.pi < a then a - 2 * Real.pi
  else if a < -Real.pi then a + 2 * Real.pi
  else a

/-- The hook's `av`: absolute shoulder-line angular velocity between the
evaluated pair. -/
noncomputable def shoulderAngVel (prev cur : Pose) : ℝ :=
  |wrapAngle (shoulderAngle cur - shoulderAngle prev) / ((cur.ts - prev.ts) / 1000)|

/-- The mutable refs of the hook that the detector logic touches. -/
structure DetectorState where
  seq : List Pose
  triggered : Bool
  lastTS : ℝ
  swingCount : ℕ

/-- Initial ref values: empty buffer, not triggered, `lastTS = 0`, count 0.
`start()` resets the count but clears neither `seq` nor `triggered`. -/
def initialDetectorState : DetectorState := ⟨[], false, 0, 0⟩

/-- One call of the hook's `onFrame` for a frame with landmarks.  Returns the
new state and `some frames` when `analyze` fires. -/
noncomputable def onFrame (st : DetectorState) (pose : Pose) :
    DetectorState × Option (List Pose) :=
  if pose.ts - st.lastTS < 67 then (st, none)
  else
    let st1 := { st with lastTS := pose.ts }
    if st1.triggered then
      let seq := st1.seq ++ [pose]
      if MIN_FRAMES ≤ seq.length then
        ({ st1 with seq := seq, triggered := false }, some seq)
      else ({ st1 with seq := seq }, none)
    else
      let seq := (if st1.seq.length ≠ 0 then st1.seq.tail else st1.seq) ++ [pose]
      if 3 ≤ seq.length then
        match seq[2]?, seq[1]? with
        | some cur, some prev =>
          let dt := (cur.ts - prev.ts) / 1000
          if dt ≤ 0 then ({ st1 with seq := seq }, none)
          else
            if 1.5 < wristSpeed prev cur ∧ 2.5 < shoulderAngVel prev cur then
              (⟨[cur], true, pose.ts, st1.swingCount + 1⟩, none)
            else ({ st1 with seq := seq }, none)
        | _, _ => ({ st1 with seq := seq }, none)
      else ({ st1 with seq := seq }, none)

/-- Fold `onFrame` over a frame sequence, collecting the emitted analyses. -/
noncomputable def runDetector :
    DetectorState → List Pose → DetectorState × List (List Pose)
  | st, [] => (st, [])
  | st, p :: ps =>
    let r := onFrame st p
    let rest := runDetector r.1 ps
    (rest.1, r.2.toList ++ rest.2)

/-!
## Concrete frames used by the witnesses and counterexamples
-/

/-- Landmark with planar coordinates and a visibility confidence. -/
def lmv (x y v : ℝ) : Landmark := ⟨x, y, 0, some v⟩

/-- A 17-entry landmark list: left shoulder at index 11, right shoulder at
12, left wrist at 15, right wrist at 16; all other slots absent. -/
def mkPoints (lS rS lw rw : Landmark) : List Landmark :=
  [noLandmark, noLandmark, noLandmark, noLandmark, noLandmark, noLandmark,
   noLandmark, noLandmark, noLandmark, noLandmark, noLandmark,
   lS, rS, noLandmark, noLandmark, lw, rw]

/-- A frame built from the four landmarks the detector and the wrist-speed
computations read. -/
def mkFrame (t : ℝ) (lS rS lw rw : Landmark) : Pose := ⟨t, mkPoints lS rS lw rw⟩

/-- Frame for the handedness counterexample: the left wrist (visibility 0.9,
moving along x) is strictly more visible than the right wrist (visibility
0.5, fixed at (0.5, 0.5)). -/
def handPose (t lx : ℝ) : Pose :=
  mkFrame t (lmv 0.4 0.5 0.9) (lmv 0.6 0.5 0.9) (lmv lx 0.5 0.9) (lmv 0.5 0.5 0.5)

/-- Five frames, 100 ms apart, left wrist moving at 2 units/s, right wrist
still. -/
def handPoses : List Pose :=
  [handPose 100 0.1, handPose 200 0.3, handPose 300 0.5,
   handPose 400 0.7, handPose 500 0.9]

/-- Frame of the spec's trigger scenario: fixed left shoulder (0.4, 0.5),
right shoulder at (rSx, rSy), right wrist at (wx, 0.5), all visibility 0.9. -/
def scenFrame (t wx rSx rSy : ℝ) : Pose :=
  mkFrame t (lmv 0.4 0.5 0.9) (lmv rSx rSy 0.9) noLandmark (lmv wx 0.5 0.9)

/-- The spec's trigger window, 45° variant: 5 frames spanning 150 ms
(timestamps 100 … 250, 37.5 ms apart); consecutive wrist speeds are
0.267, 0.267, 1.0, 0.067 units/s, peaking at 1.0 at frame 3; the shoulder
vector rotates from (0.2, 0) at frame 0 to (0.15, 0.15) at frame 3 — a 45°
change. -/
def scenario45 : List Pose :=
  [scenFrame 100 0.5 0.6 0.5, scenFrame 137.5 0.51 0.59 0.55,
   scenFrame 175 0.52 0.57 0.6, scenFrame 212.5 0.5575 0.55 0.65,
   scenFrame 250 0.56 0.55 0.65]

/-- The spec's trigger window, ≈20° variant: identical wrist motion, but the
shoulder vector only reaches (0.19, 0.07) — a ≈20.2° change. -/
def scenario20 : List Pose :=
  [scenFrame 100 0.5 0.6 0.5, scenFrame 137.5 0.51 0.6 0.52,
   scenFrame 175 0.52 0.59 0.55, scenFrame 212.5 0.5575 0.59 0.57,
   scenFrame 250 0.56 0.59 0.57]

/-- Calm frame for the lockout run: wrist at (0.5, 0.5), shoulder line
(0.2, 0). -/
def qdum (t : ℝ) : Pose :=
  mkFrame t (lmv 0.4 0.5 0.9) (lmv 0.6 0.5 0.9) noLandmark (lmv 0.5 0.5 0.9)

/-- Explosive frame for the lockout run: relative to a `qdum` frame 100 ms
earlier, the wrist moves 0.2 in x (speed 2 units/s > 1.5) and the shoulder
line turns from (0.2, 0) to (0.2, 0.2), i.e. π/4 in 0.1 s
(7.85 rad/s > 2.5). -/
def qhot (t : ℝ) : Pose :=
  mkFrame t (lmv 0.4 0.5 0.9) (lmv 0.6 0.7 0.9) noLandmark (lmv 0.7 0.5 0.9)

/-- Armed detector state holding three calm frames, about to confirm a
swing on the next explosive frame. -/
def stArmed : DetectorState := ⟨[qdum 300, qdum 400, qdum 500], false, 500, 0⟩

/-- Sixteen frames, 100 ms apart: the first confirms a swing at t = 600 ms;
frames 2–15 are collected; the last frame (t = 2100 ms, only 1500 ms after
the first confirmation) re-triggers on the stale buffered pair
(`qdum 800`, `qhot 900`). -/
def lockoutFrames : List Pose :=
  [qhot 600, qdum 700, qdum 800, qhot 900, qdum 1000, qdum 1100, qdum 1200,
   qdum 1300, qdum 1400, qdum 1500, qdum 1600, qdum 1700, qdum 1800,
   qdum 1900, qdum 2000, qdum 2100]

/-- Five frames sharing one timestamp: every consecutive pair has a zero
time delta. -/
def flatFive : List Pose := [⟨100, []⟩, ⟨100, []⟩, ⟨100, []⟩, ⟨100, []⟩, ⟨100, []⟩]

/-- Evaluation helper: the square root of an exact square. -/
theorem sqrtEval {a b : ℝ} (hb : 0 ≤ b) (h : b ^ 2 = a) : Real.sqrt a = b := by
  rw [← h]
  exact Real.sqrt_sq hb

/-- Claim C6: for fewer than 5 frames, `calculateMetrics` returns the
all-zero metrics record (and `_getEmptyMetrics` is exactly that record);
the guard makes insufficient data a defaulted result, not an exception. -/
theorem claim_C6 : ∀ poses : List Pose, poses.length < 5 →
    calculateMetrics poses = getEmptyMetrics ∧
    getEmptyMetrics = ⟨0, 0, ⟨0, 0, false⟩, 0⟩ := by
  intro ps h
  refine ⟨?_, rfl⟩
  unfold calculateMetrics
  rw [if_pos h]

/-- Claim C6 witness: the empty pose list has fewer than 5 frames and maps
to the all-zero record. -/
theorem claim_C6_witness :
    ([] : List Pose).length < 5 ∧ calculateMetrics [] = getEmptyMetrics :=
  ⟨by norm_num, (claim_C6 [] (by norm_num)).1⟩

/-- Claim C7: the clamped-arccos angle between any two 2D vectors lies in
[0°, 180°], and when either vector has zero magnitude the computation
short-circuits to exactly 0° (the guard fires before any division by the
magnitudes). -/
theorem claim_C7 : ∀ v1 v2 : Vec2,
    (0 ≤ calculateAngleBetweenVectors v1 v2
      ∧ calculateAngleBetweenVectors v1 v2 ≤ 180)
    ∧ ((magnitude v1 = 0 ∨ magnitude v2 = 0) →
        calculateAngleBetweenVectors v1 v2 = 0) := by
  intro v1 v2
  unfold calculateAngleBetweenVectors
  by_cases h : magnitude v1 = 0 ∨ magnitude v2 = 0
  · rw [if_pos h]
    exact ⟨⟨le_refl 0, by norm_num⟩, fun _ => rfl⟩
  · rw [if_neg h]
    refine ⟨⟨?_, ?_⟩, fun hc => absurd hc h⟩
    · exact mul_nonneg (Real.arccos_nonneg _) (by positivity)
    · calc Real.arccos _ * (180 / Real.pi)
          ≤ Real.pi * (180 / Real.pi) :=
            mul_le_mul_of_nonneg_right (Real.arccos_le_pi _) (by positivity)
        _ = 180 := by
            rw [mul_comm]
            exact div_mul_cancel₀ 180 Real.pi_ne_zero

/-- Claim C7 witness: the zero vector has zero magnitude and the angle
against `(1,0)` evaluates to 0°. -/
theorem claim_C7_witness :
    (magnitude ⟨0, 0⟩ = 0 ∨ magnitude ⟨1, 0⟩ = 0)
    ∧ calculateAngleBetweenVectors ⟨0, 0⟩ ⟨1, 0⟩ = 0 := by
  have h0 : magnitude (⟨0, 0⟩ : Vec2) = 0 := by
    simp [magnitude]
  exact ⟨Or.inl h0, (claim_C7 ⟨0, 0⟩ ⟨1, 0⟩).2 (Or.inl h0)⟩

/-- The inter-frame intervals of a strictly time-increasing pose list are
all positive. -/
theorem intervalsPos : ∀ l : List Pose, List.Chain' (fun a b => a.ts < b.ts) l →
    ∀ x ∈ List.zipWith (fun c p => c.ts - p.ts) l.tail l, 0 < x := by
  intro l
  induction l with
  | nil => intro _ x hx; simp at hx
  | cons a t ih =>
    intro hch x hx
    cases t with
    | nil => simp at hx
    | cons b t2 =>
      rw [List.chain'_cons] at hch
      simp only [List.tail_cons, List.zipWith_cons_cons] at hx
      rcases List.mem_cons.mp hx with hx | hx
      · rw [hx]
        exact sub_pos.mpr hch.1
      · exact ih hch.2 x hx

/-- Claim C9: `_calculateSwingRhythm` returns 0 for fewer than 3 frames,
and on a (data-model-conformant) strictly time-increasing sequence equals
round(max(0, 100 − CV·200)) with CV = stdDev/mean taken as 0 when the mean
is 0 — under monotone timestamps the mean of the intervals is positive, so
the code's `mean > 0` test and the spec's "0 if mean is 0" rule coincide. -/
theorem claim_C9 :
    (∀ poses : List Pose, poses.length < 3 → calculateSwingRhythm poses = 0)
    ∧ ∀ poses : List Pose,
        List.Chain' (fun a b => a.ts < b.ts) poses →
        calculateSwingRhythm poses = specSwingRhythm poses := by
  constructor
  · intro ps h
    unfold calculateSwingRhythm
    rw [if_pos h]
  · intro ps hch
    unfold calculateSwingRhythm specSwingRhythm
    by_cases h3 : ps.length < 3
    · rw [if_pos h3, if_pos h3]
    · rw [if_neg h3, if_neg h3]
      have hlen : 0 < (List.zipWith (fun c p => c.ts - p.ts) ps.tail ps).length := by
        rw [List.length_zipWith, List.length_tail]
        omega
      have hne : List.zipWith (fun c p => c.ts - p.ts) ps.tail ps ≠ [] :=
        List.length_pos.mp hlen
      have hsum : 0 < (List.zipWith (fun c p => c.ts - p.ts) ps.tail ps).sum :=
        List.sum_pos _ (intervalsPos ps hch) hne
      have hmean : 0 < (List.zipWith (fun c p => c.ts - p.ts) ps.tail ps).sum /
          ((List.zipWith (fun c p => c.ts - p.ts) ps.tail ps).length : ℝ) :=
        div_pos hsum (by exact_mod_cast hlen)
      simp only [if_pos hmean, if_neg hmean.ne']

/-- Claim C9 witness: a concrete strictly increasing 3-frame sequence. -/
theorem claim_C9_witness :
    List.Chain' (fun a b : Pose => a.ts < b.ts) [⟨100, []⟩, ⟨200, []⟩, ⟨300, []⟩]
    ∧ calculateSwingRhythm [⟨100, []⟩, ⟨200, []⟩, ⟨300, []⟩]
        = specSwingRhythm [⟨100, []⟩, ⟨200, []⟩, ⟨300, []⟩] := by
  have hch : List.Chain' (fun a b : Pose => a.ts < b.ts)
      [⟨100, []⟩, ⟨200, []⟩, ⟨300, []⟩] := by
    norm_num [List.chain'_cons]
  exact ⟨hch, claim_C9.2 _ hch⟩

/-- One unfolding step of `peakLoop`. -/
theorem peakLoop_cons (w : ℕ) (c : Pose) (rest : List Pose) (i : ℕ)
    (prev : Pose) (st : ℝ × ℕ) :
    peakLoop w (c :: rest) i prev st =
      peakLoop w rest (i + 1) c
        (if (c.ts - prev.ts) / 1000 ≤ 0 then st
         else if landmarksVisible [pt prev w, pt c w] then
           (if st.1 < calculateDistance (pt prev w) (pt c w) / ((c.ts - prev.ts) / 1000)
            then (calculateDistance (pt prev w) (pt c w) / ((c.ts - prev.ts) / 1000), i)
            else st)
         else st) := rfl

/-- The peak index carried by `peakLoop` stays below the running counter
plus the number of remaining frames. -/
theorem peakLoop_idx_bound (w : ℕ) : ∀ (xs : List Pose) (i : ℕ) (prev : Pose)
    (st : ℝ × ℕ), st.2 < i → (peakLoop w xs i prev st).2 < i + xs.length := by
  intro xs
  induction xs with
  | nil =>
    intro i prev st h
    have he : peakLoop w [] i prev st = st := rfl
    rw [he, List.length_nil, Nat.add_zero]
    exact h
  | cons c rest ih =>
    intro i prev st h
    rw [peakLoop_cons]
    have h2 : (if (c.ts - prev.ts) / 1000 ≤ 0 then st
         else if landmarksVisible [pt prev w, pt c w] then
           (if st.1 < calculateDistance (pt prev w) (pt c w) / ((c.ts - prev.ts) / 1000)
            then (calculateDistance (pt prev w) (pt c w) / ((c.ts - prev.ts) / 1000), i)
            else st)
         else st).2 < i + 1 := by
      split_ifs <;> first | exact Nat.lt_succ_of_lt h | exact Nat.lt_succ_self i
    have h3 := ih (i + 1) c _ h2
    rw [List.length_cons]
    omega

/-- If no consecutive pair has both a positive time delta and two visible
wrists, `peakLoop` returns its start state unchanged. -/
theorem peakLoop_skip (w : ℕ) : ∀ (xs : List Pose) (prev : Pose) (i : ℕ)
    (st : ℝ × ℕ),
    (∀ pr ∈ List.zip (prev :: xs) xs,
      ¬ (0 < (pr.2.ts - pr.1.ts) / 1000
         ∧ landmarksVisible [pt pr.1 w, pt pr.2 w])) →
    peakLoop w xs i prev st = st := by
  intro xs
  induction xs with
  | nil => intro prev i st _; rfl
  | cons c rest ih =>
    intro prev i st h
    have hpair := h (prev, c) (by simp [List.zip_cons_cons])
    rw [peakLoop_cons]
    have h2 : (if (c.ts - prev.ts) / 1000 ≤ 0 then st
         else if landmarksVisible [pt prev w, pt c w] then
           (if st.1 < calculateDistance (pt prev w) (pt c w) / ((c.ts - prev.ts) / 1000)
            then (calculateDistance (pt prev w) (pt c w) / ((c.ts - prev.ts) / 1000), i)
            else st)
         else st) = st := by
      by_cases hdt : (c.ts - prev.ts) / 1000 ≤ 0
      · rw [if_pos hdt]
      · rw [if_neg hdt]
        have hvisF : ¬ landmarksVisible [pt prev w, pt c w] := fun hv =>
          hpair ⟨lt_of_not_le hdt, hv⟩
        rw [if_neg hvisF]
    rw [h2]
    refine ih c (i + 1) st fun pr hpr => h pr ?_
    simp only [List.zip_cons_cons, List.mem_cons]
    right
    exact hpr

/-- Claim C10: for ≥5 frames the peak-speed index used as the contact frame
is strictly below the sequence length (so the lookup is in bounds), and
when no consecutive pair has a positive time delta together with visible
wrists the index stays at its initial value 0, the speed score is 0, and
the contact metrics are those of the first frame. -/
theorem claim_C10 : ∀ poses : List Pose, 5 ≤ poses.length →
    (calculatePeakArmSpeed poses).2 < poses.length
    ∧ ((∀ pr ∈ List.zip poses poses.tail,
          ¬ (0 < (pr.2.ts - pr.1.ts) / 1000
             ∧ landmarksVisible [pt pr.1 RIGHT_WRIST, pt pr.2 RIGHT_WRIST])) →
        (calculatePeakArmSpeed poses).2 = 0
        ∧ (calculatePeakArmSpeed poses).1 = 0
        ∧ (calculateMetrics poses).contactMetrics
            = calculateContactMetrics (poses.getD 0 ⟨0, []⟩)) := by
  intro poses h5
  cases poses with
  | nil => simp at h5
  | cons p rest =>
    have hlen5 : ¬ (p :: rest).length < 5 := by omega
    constructor
    · have hb := peakLoop_idx_bound RIGHT_WRIST rest 1 p (0, 0) (by norm_num)
      simpa [calculatePeakArmSpeed, peakArmSpeedAt, peakRaw, Nat.add_comm] using hb
    · intro hskip
      have hraw : peakRaw RIGHT_WRIST (p :: rest) = (0, 0) := by
        show peakLoop RIGHT_WRIST rest 1 p (0, 0) = (0, 0)
        exact peakLoop_skip RIGHT_WRIST rest p 1 (0, 0) (by simpa using hskip)
      have hpk : (calculatePeakArmSpeed (p :: rest)).2 = 0 := by
        simp [calculatePeakArmSpeed, peakArmSpeedAt, hraw]
      refine ⟨hpk, ?_, ?_⟩
      · simp only [calculatePeakArmSpeed, peakArmSpeedAt, hraw]
        norm_num [mathRoundR, min_def]
      · unfold calculateMetrics
        rw [if_neg hlen5]
        simp only []
        rw [hpk]

/-- Claim C10 witness: five frames with identical timestamps — no pair
qualifies, so the peak index stays 0, the speed is 0 and the contact
metrics come from the first frame. -/
theorem claim_C10_witness :
    5 ≤ flatFive.length
    ∧ (calculatePeakArmSpeed flatFive).2 = 0
    ∧ (calculatePeakArmSpeed flatFive).1 = 0
    ∧ (calculateMetrics flatFive).contactMetrics
        = calculateContactMetrics (flatFive.getD 0 ⟨0, []⟩) := by
  have h5 : 5 ≤ flatFive.length := by norm_num [flatFive]
  have hskip : ∀ pr ∈ List.zip flatFive flatFive.tail,
      ¬ (0 < (pr.2.ts - pr.1.ts) / 1000
         ∧ landmarksVisible [pt pr.1 RIGHT_WRIST, pt pr.2 RIGHT_WRIST]) := by
    intro pr hpr
    have hts : pr.1.ts = 100 ∧ pr.2.ts = 100 := by
      simp only [flatFive, List.tail_cons, List.zip_cons_cons, List.zip_nil_right,
        List.mem_cons, List.not_mem_nil, or_false] at hpr
      rcases hpr with h | h | h | h <;> rw [h] <;> exact ⟨rfl, rfl⟩
    rintro ⟨hlt, -⟩
    rw [hts.1, hts.2] at hlt
    norm_num at hlt
  exact ⟨h5, (claim_C10 flatFive h5).2 hskip⟩

/-- Appending a frame whose timestamp does not advance past the last frame
leaves the peak-speed loop unchanged (the `dt ≤ 0` guard skips the new
pair). -/
theorem peakLoop_append (w : ℕ) : ∀ (xs : List Pose) (q : Pose) (i : ℕ)
    (prev : Pose) (st : ℝ × ℕ),
    q.ts ≤ ((prev :: xs).getLast (List.cons_ne_nil prev xs)).ts →
    peakLoop w (xs ++ [q]) i prev st = peakLoop w xs i prev st := by
  intro xs
  induction xs with
  | nil =>
    intro q i prev st hq
    have hle : q.ts ≤ prev.ts := hq
    show peakLoop w [q] i prev st = peakLoop w [] i prev st
    rw [peakLoop_cons]
    have hdt : (q.ts - prev.ts) / 1000 ≤ 0 :=
      div_nonpos_of_nonpos_of_nonneg (sub_nonpos.mpr hle) (by norm_num)
    rw [if_pos hdt]
    rfl
  | cons c rest ih =>
    intro q i prev st hq
    have hq2 : q.ts ≤ ((c :: rest).getLast (List.cons_ne_nil c rest)).ts := by
      rwa [List.getLast_cons (List.cons_ne_nil c rest)] at hq
    show peakLoop w ((c :: rest) ++ [q]) i prev st = peakLoop w (c :: rest) i prev st
    rw [List.cons_append, peakLoop_cons, peakLoop_cons]
    exact ih q (i + 1) c _ hq2

/-- Claim C8: zero or negative elapsed time never reaches a division.
(1) In the metrics peak-speed loop, appending a frame whose timestamp does
not advance past the previous last frame changes nothing — the `dt <= 0`
pair is skipped.  (2) In the detector's per-frame step, when the evaluated
consecutive pair has non-positive elapsed time the step returns after the
buffer update, computing no speed, confirming nothing and leaving the
swing count unchanged. -/
theorem claim_C8 :
    (∀ (ps : List Pose) (p q : Pose), ps.getLast? = some p → q.ts ≤ p.ts →
      calculatePeakArmSpeed (ps ++ [q]) = calculatePeakArmSpeed ps)
    ∧ ∀ (st : DetectorState) (pose cur prev : Pose),
        st.triggered = false →
        ¬ (pose.ts - st.lastTS < 67) →
        ((if st.seq.length ≠ 0 then st.seq.tail else st.seq) ++ [pose])[2]? = some cur →
        ((if st.seq.length ≠ 0 then st.seq.tail else st.seq) ++ [pose])[1]? = some prev →
        cur.ts ≤ prev.ts →
        onFrame st pose =
          (⟨(if st.seq.length ≠ 0 then st.seq.tail else st.seq) ++ [pose],
            false, pose.ts, st.swingCount⟩, none) := by
  constructor
  · intro ps p q hlast hle
    cases ps with
    | nil => simp at hlast
    | cons p0 rest =>
      have hne : (p0 :: rest) ≠ [] := List.cons_ne_nil _ _
      have hp : p = (p0 :: rest).getLast hne := by
        rw [List.getLast?_eq_getLast _ hne] at hlast
        exact (Option.some_inj.mp hlast).symm
      have hraw : peakRaw RIGHT_WRIST (p0 :: (rest ++ [q]))
          = peakRaw RIGHT_WRIST (p0 :: rest) := by
        show peakLoop RIGHT_WRIST (rest ++ [q]) 1 p0 (0, 0)
          = peakLoop RIGHT_WRIST rest 1 p0 (0, 0)
        apply peakLoop_append
        rw [← hp]
        exact hle
      simp [calculatePeakArmSpeed, peakArmSpeedAt, hraw]
  · intro st pose cur prev htr hth hcur hprev hle
    have h3 : 3 ≤ ((if st.seq.length ≠ 0 then st.seq.tail else st.seq) ++ [pose]).length := by
      have := (List.getElem?_eq_some.mp hcur).1
      omega
    have hdt : (cur.ts - prev.ts) / 1000 ≤ 0 :=
      div_nonpos_of_nonpos_of_nonneg (sub_nonpos.mpr hle) (by norm_num)
    unfold onFrame
    rw [if_neg hth]
    simp only [htr, Bool.false_eq_true, if_false, if_pos h3, hcur, hprev]
    rw [if_pos hdt]

/-- Claim C8 witness: a three-frame armed buffer where the newly pushed
frame's timestamp (100) lies before the previous frame's (200): the step
only updates the buffer. -/
theorem claim_C8_witness :
    ((⟨[qdum 50, qdum 100, qdum 200], false, 0, 0⟩ : DetectorState).seq.getLast?
        = some (qdum 200)
      ∧ (100 : ℝ) ≤ 200)
    ∧ onFrame ⟨[qdum 50, qdum 100, qdum 200], false, 0, 0⟩ (qdum 100)
        = (⟨[qdum 100, qdum 200, qdum 100], false, (qdum 100).ts, 0⟩, none) := by
  refine ⟨⟨rfl, by norm_num⟩, ?_⟩
  have h := claim_C8.2 ⟨[qdum 50, qdum 100, qdum 200], false, 0, 0⟩
    (qdum 100) (qdum 100) (qdum 200) rfl
    (by norm_num [qdum, mkFrame]) (by norm_num) (by norm_num)
    (by norm_num [qdum, mkFrame])
  simpa [qdum, mkFrame] using h

/-- `peakLoop` only reads each frame's timestamp and the landmark at the
tracked wrist index. -/
theorem peakLoop_proj (w : ℕ) : ∀ (xs ys : List Pose) (i : ℕ) (p q : Pose)
    (st : ℝ × ℕ),
    p.ts = q.ts → pt p w = pt q w →
    xs.map (fun r => (r.ts, pt r w)) = ys.map (fun r => (r.ts, pt r w)) →
    peakLoop w xs i p st = peakLoop w ys i q st := by
  intro xs
  induction xs with
  | nil =>
    intro ys i p q st _ _ hmap
    cases ys with
    | nil => rfl
    | cons d r2 => simp at hmap
  | cons c rest ih =>
    intro ys i p q st hts hw hmap
    cases ys with
    | nil => simp at hmap
    | cons d rest2 =>
      simp only [List.map_cons, List.cons.injEq, Prod.mk.injEq] at hmap
      obtain ⟨⟨hcd, hcw⟩, hrest⟩ := hmap
      rw [peakLoop_cons, peakLoop_cons, hcd, hts, hcw, hw]
      exact ih rest2 (i + 1) c d _ hcd hcw hrest

/-- Distance from a landmark to itself is zero. -/
theorem calculateDistance_self (a : Landmark) : calculateDistance a a = 0 := by
  simp [calculateDistance]

/-- When the tracked wrist is the same landmark in every frame, the peak
loop never updates its state. -/
theorem peakLoop_constWrist (w : ℕ) (lm : Landmark) :
    ∀ (xs : List Pose) (prev : Pose) (i : ℕ) (st : ℝ × ℕ),
    pt prev w = lm → (∀ r ∈ xs, pt r w = lm) → 0 ≤ st.1 →
    peakLoop w xs i prev st = st := by
  intro xs
  induction xs with
  | nil => intro prev i st _ _ _; rfl
  | cons c rest ih =>
    intro prev i st hprev hall hst
    rw [peakLoop_cons]
    have hc : pt c w = lm := hall c (List.mem_cons_self c rest)
    have hst2 : (if (c.ts - prev.ts) / 1000 ≤ 0 then st
         else if landmarksVisible [pt prev w, pt c w] then
           (if st.1 < calculateDistance (pt prev w) (pt c w) / ((c.ts - prev.ts) / 1000)
            then (calculateDistance (pt prev w) (pt c w) / ((c.ts - prev.ts) / 1000), i)
            else st)
         else st) = st := by
      by_cases hdt : (c.ts - prev.ts) / 1000 ≤ 0
      · rw [if_pos hdt]
      · rw [if_neg hdt]
        by_cases hv : landmarksVisible [pt prev w, pt c w]
        · rw [if_pos hv]
          have hd0 : calculateDistance (pt prev w) (pt c w) = 0 := by
            rw [hprev, hc]
            exact calculateDistance_self lm
          rw [hd0, zero_div, if_neg (not_lt.mpr hst)]
        · rw [if_neg hv]
    rw [hst2]
    exact ih c (i + 1) st hc (fun r hr => hall r (List.mem_cons_of_mem c hr)) hst

/-- One evaluated step of the peak loop at our concrete kinematics: frames
100 ms apart with the tracked wrists 0.2 apart give a 2 units/s velocity. -/
theorem peakStep_eval (w : ℕ) (prev curr : Pose) (rest : List Pose) (i : ℕ)
    (st : ℝ × ℕ)
    (hts : curr.ts - prev.ts = 100)
    (hvis : landmarksVisible [pt prev w, pt curr w])
    (hd : calculateDistance (pt prev w) (pt curr w) = 0.2) :
    peakLoop w (curr :: rest) i prev st =
      peakLoop w rest (i + 1) curr (if st.1 < 2 then (2, i) else st) := by
  rw [peakLoop_cons, hts, hd]
  rw [if_neg (by norm_num : ¬ ((100 : ℝ) / 1000 ≤ 0)), if_pos hvis]
  norm_num

/-- Both wrist landmarks of a `lmv · 0.5 0.9` pair pass the visibility
threshold. -/
theorem visPair (a b : ℝ) : landmarksVisible [lmv a 0.5 0.9, lmv b 0.5 0.9] := by
  intro lm hlm
  rcases List.mem_cons.mp hlm with h | h
  · rw [h]; norm_num [vis, lmv, MIN_VISIBILITY]
  · rcases List.mem_cons.mp h with h2 | h2
    · rw [h2]; norm_num [vis, lmv, MIN_VISIBILITY]
    · simp at h2

/-- Distance between two wrists on the same horizontal line, 0.2 apart. -/
theorem distPair (a b : ℝ) (h : (a - b) ^ 2 = 0.04) :
    calculateDistance (lmv a 0.5 0.9) (lmv b 0.5 0.9) = 0.2 := by
  unfold calculateDistance lmv
  dsimp only
  rw [show (a - b) ^ 2 + ((0.5 : ℝ) - 0.5) ^ 2 + ((0 : ℝ) - 0) ^ 2 = 0.04 by
    rw [h]; norm_num]
  exact sqrtEval (by norm_num) (by norm_num)

/-- Claim C5 (amended): no handedness selection exists.  The peak-arm-speed
computation reads only each frame's timestamp and its landmark at the
RIGHT_WRIST index — two pose lists that agree there produce identical
results, whatever the left-side joints or visibilities — and the contact
metrics read only the right shoulder/elbow/wrist and the two hips. -/
theorem claim_C5 :
    (∀ ps qs : List Pose,
      ps.map (fun r => (r.ts, pt r RIGHT_WRIST))
        = qs.map (fun r => (r.ts, pt r RIGHT_WRIST)) →
      calculatePeakArmSpeed ps = calculatePeakArmSpeed qs)
    ∧ ∀ f g : Pose,
        pt f RIGHT_SHOULDER = pt g RIGHT_SHOULDER →
        pt f RIGHT_ELBOW = pt g RIGHT_ELBOW →
        pt f RIGHT_WRIST = pt g RIGHT_WRIST →
        pt f LEFT_HIP = pt g LEFT_HIP →
        pt f RIGHT_HIP = pt g RIGHT_HIP →
        calculateContactMetrics f = calculateContactMetrics g := by
  constructor
  · intro ps qs hmap
    cases ps with
    | nil =>
      cases qs with
      | nil => rfl
      | cons d r2 => simp at hmap
    | cons c r =>
      cases qs with
      | nil => simp at hmap
      | cons d r2 =>
        simp only [List.map_cons, List.cons.injEq, Prod.mk.injEq] at hmap
        obtain ⟨⟨hts, hw⟩, hrest⟩ := hmap
        have hraw : peakRaw RIGHT_WRIST (c :: r) = peakRaw RIGHT_WRIST (d :: r2) := by
          show peakLoop RIGHT_WRIST r 1 c (0, 0) = peakLoop RIGHT_WRIST r2 1 d (0, 0)
          exact peakLoop_proj RIGHT_WRIST r r2 1 c d (0, 0) hts hw hrest
        simp [calculatePeakArmSpeed, peakArmSpeedAt, hraw]
  · intro f g h1 h2 h3 h4 h5
    unfold calculateContactMetrics getHipCenter
    rw [h1, h2, h3, h4, h5]

/-- Claim C5 witness: two single-frame lists differing in the left shoulder
and left wrist but agreeing on timestamp and right wrist give the same
peak-arm-speed result. -/
theorem claim_C5_witness :
    ([qdum 100].map (fun r => (r.ts, pt r RIGHT_WRIST))
      = [mkFrame 100 (lmv 0.9 0.9 0.9) (lmv 0.6 0.5 0.9) (lmv 0.1 0.1 0.9)
          (lmv 0.5 0.5 0.9)].map (fun r => (r.ts, pt r RIGHT_WRIST)))
    ∧ calculatePeakArmSpeed [qdum 100]
      = calculatePeakArmSpeed [mkFrame 100 (lmv 0.9 0.9 0.9) (lmv 0.6 0.5 0.9)
          (lmv 0.1 0.1 0.9) (lmv 0.5 0.5 0.9)] :=
  ⟨rfl, claim_C5.1 _ _ rfl⟩

/-- Claim C5 counterexample: a session whose every frame shows the left
wrist (visibility 0.9) strictly more visible than the right wrist
(visibility 0.5).  The spec's handedness rule would select the left wrist,
whose motion scores 100; the code nevertheless scores 0 because it tracks
the stationary right wrist — so the more-visible side's joints are not the
ones used. -/
theorem claim_C5_counterexample :
    (∀ p ∈ handPoses, vis (pt p RIGHT_WRIST) < vis (pt p LEFT_WRIST))
    ∧ specChosenWristIdx handPoses = LEFT_WRIST
    ∧ (calculatePeakArmSpeed handPoses).1 = 0
    ∧ (peakArmSpeedAt LEFT_WRIST handPoses).1 = 100 := by
  have hptR : ∀ t lx : ℝ, pt (handPose t lx) RIGHT_WRIST = lmv 0.5 0.5 0.5 :=
    fun _ _ => rfl
  have hptL : ∀ t lx : ℝ, pt (handPose t lx) LEFT_WRIST = lmv lx 0.5 0.9 :=
    fun _ _ => rfl
  refine ⟨?_, ?_, ?_, ?_⟩
  · intro p hp
    have hcases : p = handPose 100 0.1 ∨ p = handPose 200 0.3 ∨ p = handPose 300 0.5
        ∨ p = handPose 400 0.7 ∨ p = handPose 500 0.9 := by
      simpa [handPoses] using hp
    rcases hcases with h | h | h | h | h <;>
      · rw [h, hptR, hptL]
        norm_num [vis, lmv]
  · show (if vis (pt (handPose 100 0.1) RIGHT_WRIST)
        < vis (pt (handPose 100 0.1) LEFT_WRIST) then LEFT_WRIST else RIGHT_WRIST)
      = LEFT_WRIST
    rw [hptR, hptL, if_pos (by norm_num [vis, lmv])]
  · have hrawR : peakRaw RIGHT_WRIST handPoses = (0, 0) := by
      show peakLoop RIGHT_WRIST [handPose 200 0.3, handPose 300 0.5,
        handPose 400 0.7, handPose 500 0.9] 1 (handPose 100 0.1) (0, 0) = (0, 0)
      refine peakLoop_constWrist RIGHT_WRIST (lmv 0.5 0.5 0.5) _ _ 1 (0, 0)
        (hptR 100 0.1) ?_ (by norm_num)
      intro r hr
      have hcases : r = handPose 200 0.3 ∨ r = handPose 300 0.5
          ∨ r = handPose 400 0.7 ∨ r = handPose 500 0.9 := by simpa using hr
      rcases hcases with h | h | h | h <;> rw [h] <;> exact hptR _ _
    show (mathRoundR (min 100 ((peakRaw RIGHT_WRIST handPoses).1 * 50)),
      (peakRaw RIGHT_WRIST handPoses).2).1 = 0
    rw [hrawR]
    norm_num [mathRoundR, min_def]
  · have hvisP : ∀ ta tb la lb : ℝ,
        landmarksVisible [pt (handPose ta la) LEFT_WRIST, pt (handPose tb lb) LEFT_WRIST] := by
      intro ta tb la lb
      rw [hptL, hptL]
      exact visPair la lb
    have hts : ∀ ta tb la lb : ℝ, tb - ta = 100 →
        (handPose tb lb).ts - (handPose ta la).ts = 100 := by
      intro ta tb la lb h
      simpa [handPose, mkFrame] using h
    have hdist : ∀ ta tb la lb : ℝ, (la - lb) ^ 2 = 0.04 →
        calculateDistance (pt (handPose ta la) LEFT_WRIST)
          (pt (handPose tb lb) LEFT_WRIST) = 0.2 := by
      intro ta tb la lb h
      rw [hptL, hptL]
      exact distPair la lb h
    have hrawL : peakRaw LEFT_WRIST handPoses = (2, 1) := by
      show peakLoop LEFT_WRIST [handPose 200 0.3, handPose 300 0.5,
        handPose 400 0.7, handPose 500 0.9] 1 (handPose 100 0.1) (0, 0) = (2, 1)
      rw [peakStep_eval LEFT_WRIST _ _ _ 1 (0, 0)
        (hts 100 200 0.1 0.3 (by norm_num)) (hvisP 100 200 0.1 0.3)
        (hdist 100 200 0.1 0.3 (by norm_num))]
      rw [if_pos (by norm_num : ((0 : ℝ), (0 : ℕ)).1 < 2)]
      rw [peakStep_eval LEFT_WRIST _ _ _ 2 (2, 1)
        (hts 200 300 0.3 0.5 (by norm_num)) (hvisP 200 300 0.3 0.5)
        (hdist 200 300 0.3 0.5 (by norm_num))]
      rw [if_neg (by norm_num : ¬ (((2 : ℝ), (1 : ℕ)).1 < 2))]
      rw [peakStep_eval LEFT_WRIST _ _ _ 3 (2, 1)
        (hts 300 400 0.5 0.7 (by norm_num)) (hvisP 300 400 0.5 0.7)
        (hdist 300 400 0.5 0.7 (by norm_num))]
      rw [if_neg (by norm_num : ¬ (((2 : ℝ), (1 : ℕ)).1 < 2))]
      rw [peakStep_eval LEFT_WRIST _ _ _ 4 (2, 1)
        (hts 400 500 0.7 0.9 (by norm_num)) (hvisP 400 500 0.7 0.9)
        (hdist 400 500 0.7 0.9 (by norm_num))]
      rw [if_neg (by norm_num : ¬ (((2 : ℝ), (1 : ℕ)).1 < 2))]
      rfl
    show (mathRoundR (min 100 ((peakRaw LEFT_WRIST handPoses).1 * 50)),
      (peakRaw LEFT_WRIST handPoses).2).1 = 100
    rw [hrawL]
    norm_num [mathRoundR, min_def]

/-- While the detector is armed with at most one buffered frame, one step
keeps it armed with at most one buffered frame, changes no count and emits
nothing: the shift-then-push buffer update never lets the armed buffer
grow, so the 3-frame trigger evaluation is never reached. -/
theorem onFrame_armedSmall (st : DetectorState) (pose : Pose)
    (ht : st.triggered = false) (hlen : st.seq.length ≤ 1) :
    (onFrame st pose).1.triggered = false
    ∧ (onFrame st pose).1.seq.length ≤ 1
    ∧ (onFrame st pose).1.swingCount = st.swingCount
    ∧ (onFrame st pose).2 = none := by
  unfold onFrame
  by_cases hth : pose.ts - st.lastTS < 67
  · rw [if_pos hth]
    exact ⟨ht, hlen, rfl, rfl⟩
  · rw [if_neg hth]
    simp only [ht, Bool.false_eq_true, if_false]
    have hseq : ((if st.seq.length ≠ 0 then st.seq.tail else st.seq) ++ [pose]).length ≤ 1 := by
      by_cases h0 : st.seq.length ≠ 0
      · rw [if_pos h0]
        rw [List.length_append, List.length_tail]
        simp only [List.length_singleton]
        omega
      · rw [if_neg h0]
        rw [List.length_append]
        simp only [List.length_singleton]
        omega
    rw [if_neg (by omega :
      ¬ (3 ≤ ((if st.seq.length ≠ 0 then st.seq.tail else st.seq) ++ [pose]).length))]
    exact ⟨rfl, hseq, rfl, rfl⟩

/-- Running any frame sequence from an armed state with at most one
buffered frame preserves the count, the armed-small invariant, and emits
nothing. -/
theorem runDetector_armedSmall : ∀ (frames : List Pose) (st : DetectorState),
    st.triggered = false → st.seq.length ≤ 1 →
    (runDetector st frames).1.swingCount = st.swingCount
    ∧ (runDetector st frames).2 = []
    ∧ (runDetector st frames).1.triggered = false
    ∧ (runDetector st frames).1.seq.length ≤ 1 := by
  intro frames
  induction frames with
  | nil => intro st ht hl; exact ⟨rfl, rfl, ht, hl⟩
  | cons p ps ih =>
    intro st ht hl
    obtain ⟨h1, h2, h3, h4⟩ := onFrame_armedSmall st p ht hl
    have hr : runDetector st (p :: ps)
        = ((runDetector (onFrame st p).1 ps).1,
           (onFrame st p).2.toList ++ (runDetector (onFrame st p).1 ps).2) := rfl
    obtain ⟨g1, g2, g3, g4⟩ := ih (onFrame st p).1 h1 h2
    rw [hr]
    refine ⟨by rw [g1, h3], ?_, g3, g4⟩
    rw [h4, g2]
    rfl

/-- Claim C3 (amended): from any armed state whose buffer holds at most one
frame — in particular a fresh session — NO frame sequence produces a
confirmed swing or an emission: the armed-phase shift-then-push keeps the
buffer at one frame, below the 3 frames the trigger evaluation requires.
Consequently neither the 45° nor the 20° five-frame window of the spec's
trigger scenario is confirmed (and the trigger thresholds the code would
apply are 1.5 units/s and 2.5 rad/s, not 0.75 units/s with a rise-time
band and a 40° total-rotation test). -/
theorem claim_C3 :
    ∀ (st : DetectorState) (frames : List Pose),
      st.triggered = false → st.seq.length ≤ 1 →
      (runDetector st frames).1.swingCount = st.swingCount
      ∧ (runDetector st frames).2 = [] := by
  intro st frames ht hl
  obtain ⟨h1, h2, -, -⟩ := runDetector_armedSmall frames st ht hl
  exact ⟨h1, h2⟩

/-- Claim C3 witness: the fresh session run over the 20° window confirms
nothing and emits nothing. -/
theorem claim_C3_witness :
    initialDetectorState.triggered = false
    ∧ initialDetectorState.seq.length ≤ 1
    ∧ (runDetector initialDetectorState scenario20).1.swingCount
        = initialDetectorState.swingCount
    ∧ (runDetector initialDetectorState scenario20).2 = [] := by
  have h := claim_C3 initialDetectorState scenario20 rfl
    (by norm_num [initialDetectorState])
  exact ⟨rfl, by norm_num [initialDetectorState], h.1, h.2⟩

/-- The clamped-arccos angle between `(0.2, 0)` and `(0.15, 0.15)` is 45°. -/
theorem angle45 : calculateAngleBetweenVectors ⟨0.2, 0⟩ ⟨0.15, 0.15⟩ = 45 := by
  have hm1 : magnitude ⟨0.2, 0⟩ = 0.2 := by
    unfold magnitude
    dsimp only
    exact sqrtEval (by norm_num) (by norm_num)
  have hm2 : magnitude ⟨0.15, 0.15⟩ = 0.15 * Real.sqrt 2 := by
    unfold magnitude
    dsimp only
    rw [show ((0.15 : ℝ) * 0.15 + 0.15 * 0.15) = 0.0225 * 2 by norm_num]
    rw [Real.sqrt_mul (by norm_num : (0 : ℝ) ≤ 0.0225)]
    rw [show Real.sqrt 0.0225 = 0.15 from sqrtEval (by norm_num) (by norm_num)]
  have hs2 : (0 : ℝ) < Real.sqrt 2 := Real.sqrt_pos.mpr (by norm_num)
  have hne : ¬ (magnitude ⟨0.2, 0⟩ = 0 ∨ magnitude (⟨0.15, 0.15⟩ : Vec2) = 0) := by
    push_neg
    rw [hm1, hm2]
    constructor
    · norm_num
    · positivity
  unfold calculateAngleBetweenVectors
  rw [if_neg hne]
  dsimp only
  rw [hm1, hm2]
  have hcos : ((0.2 : ℝ) * 0.15 + 0 * 0.15) / (0.2 * (0.15 * Real.sqrt 2))
      = Real.sqrt 2 / 2 := by
    rw [show ((0.2 : ℝ) * 0.15 + 0 * 0.15) = 0.03 by norm_num]
    rw [show ((0.2 : ℝ) * (0.15 * Real.sqrt 2)) = 0.03 * Real.sqrt 2 by ring]
    rw [div_mul_eq_div_div]
    norm_num
    rw [inv_eq_one_div, div_eq_div_iff (ne_of_gt hs2) (by norm_num : (2 : ℝ) ≠ 0)]
    rw [Real.mul_self_sqrt (by norm_num : (0 : ℝ) ≤ 2)]
    norm_num
  rw [hcos]
  have hle1 : Real.sqrt 2 / 2 ≤ 1 := by
    rw [div_le_one (by norm_num : (0 : ℝ) < 2)]
    calc Real.sqrt 2 ≤ Real.sqrt 4 := Real.sqrt_le_sqrt (by norm_num)
      _ = 2 := sqrtEval (by norm_num) (by norm_num)
  have hgem1 : (-1 : ℝ) ≤ Real.sqrt 2 / 2 := by
    have := Real.sqrt_nonneg 2
    linarith
  rw [min_eq_right hle1, max_eq_right hgem1]
  rw [show Real.sqrt 2 / 2 = Real.cos (Real.pi / 4) from (Real.cos_pi_div_four).symm]
  rw [Real.arccos_cos (by positivity) (by linarith [Real.pi_pos])]
  field_simp
  ring

/-- Wrist planar speed and 45° shoulder-turn facts of the spec scenario:
the peak consecutive-pair speed between frames 2 and 3 is exactly
1.0 units/s, and the shoulder line turns 45° between frame 0 and frame 3. -/
theorem scenario45_kinematics :
    wristSpeed (scenFrame 175 0.52 0.57 0.6) (scenFrame 212.5 0.5575 0.55 0.65) = 1
    ∧ calculateAngleBetweenVectors
        (calculateVector (pt (scenFrame 100 0.5 0.6 0.5) LEFT_SHOULDER)
          (pt (scenFrame 100 0.5 0.6 0.5) RIGHT_SHOULDER))
        (calculateVector (pt (scenFrame 212.5 0.5575 0.55 0.65) LEFT_SHOULDER)
          (pt (scenFrame 212.5 0.5575 0.55 0.65) RIGHT_SHOULDER)) = 45 := by
  constructor
  · unfold wristSpeed
    rw [show pt (scenFrame 212.5 0.5575 0.55 0.65) RIGHT_WRIST = lmv 0.5575 0.5 0.9
        from rfl,
      show pt (scenFrame 175 0.52 0.57 0.6) RIGHT_WRIST = lmv 0.52 0.5 0.9 from rfl,
      show (scenFrame 212.5 0.5575 0.55 0.65).ts = 212.5 from rfl,
      show (scenFrame 175 0.52 0.57 0.6).ts = 175 from rfl]
    unfold hypot lmv
    dsimp only
    rw [show ((0.5575 : ℝ) - 0.52) ^ 2 + ((0.5 : ℝ) - 0.5) ^ 2 = 0.0375 ^ 2 by norm_num]
    rw [Real.sqrt_sq (by norm_num : (0 : ℝ) ≤ 0.0375)]
    norm_num
  · have hv1 : calculateVector (pt (scenFrame 100 0.5 0.6 0.5) LEFT_SHOULDER)
        (pt (scenFrame 100 0.5 0.6 0.5) RIGHT_SHOULDER) = ⟨0.2, 0⟩ := by
      show calculateVector (lmv 0.4 0.5 0.9) (lmv 0.6 0.5 0.9) = Vec2.mk 0.2 0
      unfold calculateVector lmv
      norm_num
    have hv2 : calculateVector (pt (scenFrame 212.5 0.5575 0.55 0.65) LEFT_SHOULDER)
        (pt (scenFrame 212.5 0.5575 0.55 0.65) RIGHT_SHOULDER) = ⟨0.15, 0.15⟩ := by
      show calculateVector (lmv 0.4 0.5 0.9) (lmv 0.55 0.65 0.9) = Vec2.mk 0.15 0.15
      unfold calculateVector lmv
      norm_num
    rw [hv1, hv2]
    exact angle45

/-- Claim C3 counterexample: the spec's 45° trigger window — 5 frames over
150 ms, wrist speed peaking at exactly 1.0 units/s at frame 3, shoulder
line turning 45° between frames 0 and 3 — processed from a fresh session
confirms no swing and emits nothing, contrary to the claimed emission. -/
theorem claim_C3_counterexample :
    (runDetector initialDetectorState scenario45).1.swingCount = 0
    ∧ (runDetector initialDetectorState scenario45).2 = []
    ∧ wristSpeed (scenFrame 175 0.52 0.57 0.6) (scenFrame 212.5 0.5575 0.55 0.65) = 1
    ∧ calculateAngleBetweenVectors
        (calculateVector (pt (scenFrame 100 0.5 0.6 0.5) LEFT_SHOULDER)
          (pt (scenFrame 100 0.5 0.6 0.5) RIGHT_SHOULDER))
        (calculateVector (pt (scenFrame 212.5 0.5575 0.55 0.65) LEFT_SHOULDER)
          (pt (scenFrame 212.5 0.5575 0.55 0.65) RIGHT_SHOULDER)) = 45 := by
  obtain ⟨h1, h2, -, -⟩ := runDetector_armedSmall scenario45 initialDetectorState rfl
    (by norm_num [initialDetectorState])
  exact ⟨h1, h2, scenario45_kinematics.1, scenario45_kinematics.2⟩

/-- Armed step that fires the trigger: both threshold conditions hold on
the evaluated pair, so the state resets to `[cur]`, sets `triggered` and
increments the swing count. -/
theorem onFrame_trigger (st : DetectorState) (pose cur prev : Pose)
    (ht : st.triggered = false)
    (hth : ¬ (pose.ts - st.lastTS < 67))
    (hcur : ((if st.seq.length ≠ 0 then st.seq.tail else st.seq) ++ [pose])[2]? = some cur)
    (hprev : ((if st.seq.length ≠ 0 then st.seq.tail else st.seq) ++ [pose])[1]? = some prev)
    (hdt : ¬ ((cur.ts - prev.ts) / 1000 ≤ 0))
    (hv : 1.5 < wristSpeed prev cur)
    (hav : 2.5 < shoulderAngVel prev cur) :
    onFrame st pose = (⟨[cur], true, pose.ts, st.swingCount + 1⟩, none) := by
  have h3 : 3 ≤ ((if st.seq.length ≠ 0 then st.seq.tail else st.seq) ++ [pose]).length := by
    have := (List.getElem?_eq_some.mp hcur).1
    omega
  unfold onFrame
  rw [if_neg hth]
  simp only [ht, Bool.false_eq_true, if_false, if_pos h3, hcur, hprev]
  rw [if_neg hdt, if_pos ⟨hv, hav⟩]

/-- Triggered (collecting) step below the 15-frame threshold: the frame is
appended, nothing else changes, nothing is emitted. -/
theorem onFrame_collect (st : DetectorState) (pose : Pose)
    (ht : st.triggered = true) (hth : ¬ (pose.ts - st.lastTS < 67))
    (hlen : st.seq.length + 1 < MIN_FRAMES) :
    onFrame st pose = (⟨st.seq ++ [pose], true, pose.ts, st.swingCount⟩, none) := by
  unfold onFrame
  rw [if_neg hth]
  simp only [ht, if_true]
  rw [if_neg (by rw [List.length_append, List.length_singleton]; omega)]

/-- Triggered step that completes the 15-frame collection: `analyze` fires
(the buffer is emitted) and `triggered` clears; the count is unchanged. -/
theorem onFrame_complete (st : DetectorState) (pose : Pose)
    (ht : st.triggered = true) (hth : ¬ (pose.ts - st.lastTS < 67))
    (hlen : MIN_FRAMES ≤ st.seq.length + 1) :
    onFrame st pose
      = (⟨st.seq ++ [pose], false, pose.ts, st.swingCount⟩, some (st.seq ++ [pose])) := by
  unfold onFrame
  rw [if_neg hth]
  simp only [ht, if_true]
  rw [if_pos (by rw [List.length_append, List.length_singleton]; omega)]

/-- A `qdum`/`qhot` pair 100 ms apart has wrist planar speed 2 units/s. -/
theorem qpair_speed (t1 t2 : ℝ) (h : t2 - t1 = 100) :
    wristSpeed (qdum t1) (qhot t2) = 2 := by
  unfold wristSpeed
  rw [show pt (qhot t2) RIGHT_WRIST = lmv 0.7 0.5 0.9 from rfl,
    show pt (qdum t1) RIGHT_WRIST = lmv 0.5 0.5 0.9 from rfl,
    show (qhot t2).ts = t2 from rfl, show (qdum t1).ts = t1 from rfl, h]
  unfold hypot lmv
  dsimp only
  rw [show ((0.7 : ℝ) - 0.5) ^ 2 + ((0.5 : ℝ) - 0.5) ^ 2 = 0.2 ^ 2 by norm_num]
  rw [Real.sqrt_sq (by norm_num : (0 : ℝ) ≤ 0.2)]
  norm_num

/-- A `qdum`/`qhot` pair 100 ms apart turns the shoulder line from angle 0
to π/4, i.e. at 2.5·π rad/s. -/
theorem qpair_angvel (t1 t2 : ℝ) (h : t2 - t1 = 100) :
    shoulderAngVel (qdum t1) (qhot t2) = 2.5 * Real.pi := by
  have ha1 : shoulderAngle (qdum t1) = 0 := by
    unfold shoulderAngle
    rw [show pt (qdum t1) RIGHT_SHOULDER = lmv 0.6 0.5 0.9 from rfl,
      show pt (qdum t1) LEFT_SHOULDER = lmv 0.4 0.5 0.9 from rfl]
    unfold atan2 lmv
    dsimp only
    rw [if_pos (by norm_num : (0 : ℝ) < 0.6 - 0.4)]
    rw [show ((0.5 : ℝ) - 0.5) / (0.6 - 0.4) = 0 by norm_num]
    exact Real.arctan_zero
  have ha2 : shoulderAngle (qhot t2) = Real.pi / 4 := by
    unfold shoulderAngle
    rw [show pt (qhot t2) RIGHT_SHOULDER = lmv 0.6 0.7 0.9 from rfl,
      show pt (qhot t2) LEFT_SHOULDER = lmv 0.4 0.5 0.9 from rfl]
    unfold atan2 lmv
    dsimp only
    rw [if_pos (by norm_num : (0 : ℝ) < 0.6 - 0.4)]
    rw [show ((0.7 : ℝ) - 0.5) / (0.6 - 0.4) = 1 by norm_num]
    exact Real.arctan_one
  unfold shoulderAngVel
  rw [ha1, ha2, sub_zero]
  have hw : wrapAngle (Real.pi / 4) = Real.pi / 4 := by
    unfold wrapAngle
    rw [if_neg (by linarith [Real.pi_pos]), if_neg (by linarith [Real.pi_pos])]
  rw [hw, show (qhot t2).ts = t2 from rfl, show (qdum t1).ts = t1 from rfl, h]
  rw [abs_of_nonneg (by positivity)]
  rw [show (100 : ℝ) / 1000 = 1 / 10 by norm_num]
  field_simp
  ring

/-- Claim C4 (amended): while the detector is in its post-confirmation
collecting state (`triggered`), no frame changes the swing count — the
trigger evaluation is not reached, so no second swing can be confirmed
during collection.  (The lockout is this collection phase, not a timed
cooldown; see the counterexample for a second confirmation after only
1500 ms.) -/
theorem claim_C4 : ∀ (st : DetectorState) (pose : Pose), st.triggered = true →
    (onFrame st pose).1.swingCount = st.swingCount := by
  intro st pose ht
  unfold onFrame
  by_cases hth : pose.ts - st.lastTS < 67
  · rw [if_pos hth]
  · rw [if_neg hth]
    simp only [ht, if_true]
    by_cases h15 : MIN_FRAMES ≤ (st.seq ++ [pose]).length
    · rw [if_pos h15]
    · rw [if_neg h15]

/-- Claim C4 witness: a collecting state with count 3 keeps count 3 on the
next frame. -/
theorem claim_C4_witness :
    (⟨[qdum 100], true, 100, 3⟩ : DetectorState).triggered = true
    ∧ (onFrame ⟨[qdum 100], true, 100, 3⟩ (qdum 200)).1.swingCount = 3 :=
  ⟨rfl, claim_C4 ⟨[qdum 100], true, 100, 3⟩ (qdum 200) rfl⟩

/-- Claim C4 counterexample: there is no fixed 2000 ms cooldown.  From an
armed three-frame buffer, the first frame (t = 600 ms) confirms swing #1;
the next 14 frames are collected (analysis fires at t = 2000 ms); the very
next frame at t = 2100 ms — only 1500 ms after the first confirmation, and
although its own kinematics are calm — re-triggers on the stale buffered
pair (`qdum 800`, `qhot 900`) and increments the count to 2. -/
theorem claim_C4_counterexample :
    (runDetector stArmed [qhot 600]).1.swingCount = 1
    ∧ (runDetector stArmed lockoutFrames).1.swingCount = 2
    ∧ (2100 : ℝ) - 600 < 2000 := by
  have hrd : ∀ (st : DetectorState) (p : Pose) (ps : List Pose),
      runDetector st (p :: ps)
        = ((runDetector (onFrame st p).1 ps).1,
           (onFrame st p).2.toList ++ (runDetector (onFrame st p).1 ps).2) :=
    fun _ _ _ => rfl
  have hnil : ∀ st : DetectorState, runDetector st [] = (st, []) := fun _ => rfl
  have hpi := Real.pi_gt_three
  have step1 : onFrame stArmed (qhot 600) = (⟨[qhot 600], true, 600, 1⟩, none) := by
    refine onFrame_trigger stArmed (qhot 600) (qhot 600) (qdum 500) rfl ?_ rfl rfl ?_ ?_ ?_
    · show ¬ ((qhot 600).ts - stArmed.lastTS < 67)
      norm_num [qhot, mkFrame, stArmed]
    · show ¬ (((qhot 600).ts - (qdum 500).ts) / 1000 ≤ 0)
      norm_num [qhot, qdum, mkFrame]
    · rw [qpair_speed 500 600 (by norm_num)]
      norm_num
    · rw [qpair_angvel 500 600 (by norm_num)]
      linarith
  have hcol : ∀ (l : List Pose) (t t2 : ℝ), t2 - t = 100 → l.length + 1 < MIN_FRAMES →
      onFrame ⟨l, true, t, 1⟩ (qdum t2) = (⟨l ++ [qdum t2], true, t2, 1⟩, none) := by
    intro l t t2 hdt hlen
    refine onFrame_collect ⟨l, true, t, 1⟩ (qdum t2) rfl ?_ hlen
    show ¬ ((qdum t2).ts - t < 67)
    rw [show (qdum t2).ts = t2 from rfl, hdt]
    norm_num
  have hcolH : ∀ (l : List Pose) (t t2 : ℝ), t2 - t = 100 → l.length + 1 < MIN_FRAMES →
      onFrame ⟨l, true, t, 1⟩ (qhot t2) = (⟨l ++ [qhot t2], true, t2, 1⟩, none) := by
    intro l t t2 hdt hlen
    refine onFrame_collect ⟨l, true, t, 1⟩ (qhot t2) rfl ?_ hlen
    show ¬ ((qhot t2).ts - t < 67)
    rw [show (qhot t2).ts = t2 from rfl, hdt]
    norm_num
  have c2 := hcol [qhot 600] 600 700 (by norm_num) (by norm_num [MIN_FRAMES])
  have c3 := hcol [qhot 600, qdum 700] 700 800 (by norm_num) (by norm_num [MIN_FRAMES])
  have c4 := hcolH [qhot 600, qdum 700, qdum 800] 800 900 (by norm_num)
    (by norm_num [MIN_FRAMES])
  have c5 := hcol [qhot 600, qdum 700, qdum 800, qhot 900] 900 1000 (by norm_num)
    (by norm_num [MIN_FRAMES])
  have c6 := hcol [qhot 600, qdum 700, qdum 800, qhot 900, qdum 1000] 1000 1100
    (by norm_num) (by norm_num [MIN_FRAMES])
  have c7 := hcol [qhot 600, qdum 700, qdum 800, qhot 900, qdum 1000, qdum 1100]
    1100 1200 (by norm_num) (by norm_num [MIN_FRAMES])
  have c8 := hcol [qhot 600, qdum 700, qdum 800, qhot 900, qdum 1000, qdum 1100,
    qdum 1200] 1200 1300 (by norm_num) (by norm_num [MIN_FRAMES])
  have c9 := hcol [qhot 600, qdum 700, qdum 800, qhot 900, qdum 1000, qdum 1100,
    qdum 1200, qdum 1300] 1300 1400 (by norm_num) (by norm_num [MIN_FRAMES])
  have c10 := hcol [qhot 600, qdum 700, qdum 800, qhot 900, qdum 1000, qdum 1100,
    qdum 1200, qdum 1300, qdum 1400] 1400 1500 (by norm_num) (by norm_num [MIN_FRAMES])
  have c11 := hcol [qhot 600, qdum 700, qdum 800, qhot 900, qdum 1000, qdum 1100,
    qdum 1200, qdum 1300, qdum 1400, qdum 1500] 1500 1600 (by norm_num)
    (by norm_num [MIN_FRAMES])
  have c12 := hcol [qhot 600, qdum 700, qdum 800, qhot 900, qdum 1000, qdum 1100,
    qdum 1200, qdum 1300, qdum 1400, qdum 1500, qdum 1600] 1600 1700 (by norm_num)
    (by norm_num [MIN_FRAMES])
  have c13 := hcol [qhot 600, qdum 700, qdum 800, qhot 900, qdum 1000, qdum 1100,
    qdum 1200, qdum 1300, qdum 1400, qdum 1500, qdum 1600, qdum 1700] 1700 1800
    (by norm_num) (by norm_num [MIN_FRAMES])
  have c14 := hcol [qhot 600, qdum 700, qdum 800, qhot 900, qdum 1000, qdum 1100,
    qdum 1200, qdum 1300, qdum 1400, qdum 1500, qdum 1600, qdum 1700, qdum 1800]
    1800 1900 (by norm_num) (by norm_num [MIN_FRAMES])
  have step15 : onFrame ⟨[qhot 600, qdum 700, qdum 800, qhot 900, qdum 1000,
      qdum 1100, qdum 1200, qdum 1300, qdum 1400, qdum 1500, qdum 1600, qdum 1700,
      qdum 1800, qdum 1900], true, 1900, 1⟩ (qdum 2000)
      = (⟨[qhot 600, qdum 700, qdum 800, qhot 900, qdum 1000, qdum 1100, qdum 1200,
          qdum 1300, qdum 1400, qdum 1500, qdum 1600, qdum 1700, qdum 1800,
          qdum 1900] ++ [qdum 2000], false, 2000, 1⟩,
        some ([qhot 600, qdum 700, qdum 800, qhot 900, qdum 1000, qdum 1100,
          qdum 1200, qdum 1300, qdum 1400, qdum 1500, qdum 1600, qdum 1700,
          qdum 1800, qdum 1900] ++ [qdum 2000])) := by
    refine onFrame_complete _ _ rfl ?_ ?_
    · show ¬ ((qdum 2000).ts - (1900 : ℝ) < 67)
      norm_num [qdum, mkFrame]
    · norm_num [MIN_FRAMES]
  have step16 : onFrame ⟨[qhot 600, qdum 700, qdum 800, qhot 900, qdum 1000,
      qdum 1100, qdum 1200, qdum 1300, qdum 1400, qdum 1500, qdum 1600, qdum 1700,
      qdum 1800, qdum 1900, qdum 2000], false, 2000, 1⟩ (qdum 2100)
      = (⟨[qhot 900], true, 2100, 2⟩, none) := by
    refine onFrame_trigger _ _ (qhot 900) (qdum 800) rfl ?_ rfl rfl ?_ ?_ ?_
    · show ¬ ((qdum 2100).ts - (2000 : ℝ) < 67)
      norm_num [qdum, mkFrame]
    · show ¬ (((qhot 900).ts - (qdum 800).ts) / 1000 ≤ 0)
      norm_num [qhot, qdum, mkFrame]
    · rw [qpair_speed 800 900 (by norm_num)]
      norm_num
    · rw [qpair_angvel 800 900 (by norm_num)]
      linarith
  refine ⟨?_, ?_, by norm_num⟩
  · rw [hrd, step1]
    rfl
  · simp only [lockoutFrames, hrd, hnil, step1, c2, c3, c4, c5, c6, c7, c8, c9,
      c10, c11, c12, c13, c14, step15, step16, Option.toList, List.cons_append,
      List.nil_append]

end TennisCoach

namespace TennisCoach

/-- Claim C1 (amended): `evaluateMetrics` computes the composite score as
round(min(maxShoulderTurn,120)/120·40 + peakArmSpeed/100·30 +
min(distanceFromCore,120)/120·20 + swingRhythm/100·10) — the shoulder and
distance terms cap at 120 (not 80/120 with a lower clamp at 0 as the spec
states, and the speed term is not capped); on the spec's boundary input
{90, 100, 130, 100} the shoulder ratio is 0.75, the score is 90 (not 100),
and the "powerful, keep the rhythm" category is still selected. -/
theorem claim_C1 :
    (∀ m : Metrics, (evaluateMetrics m).score =
      mathRound (min m.maxShoulderTurn 120 / 120 * 40
        + m.peakArmSpeed / 100 * 30
        + min m.contactMetrics.distanceFromCore 120 / 120 * 20
        + m.swingRhythm / 100 * 10))
    ∧ (evaluateMetrics mBoundary).score = 90
    ∧ (evaluateMetrics mBoundary).feedback = msgPowerful := by
  refine ⟨fun m => rfl, ?_, ?_⟩ <;>
    norm_num [evaluateMetrics, mBoundary, mathRound, min_def]

/-- Claim C1 counterexample: on the spec's own boundary input the code's
score is 90 while the spec formula yields 100; and on a record with a
negative shoulder turn the code's score is −27 while the spec formula
(clamped below at 0) yields 0.  So `evaluateMetrics` does not compute the
spec's formula and the boundary input does not score 100. -/
theorem claim_C1_counterexample :
    (evaluateMetrics mBoundary).score = 90 ∧ specScore mBoundary = 100
    ∧ (evaluateMetrics mNegTurn).score = -27 ∧ specScore mNegTurn = 0 := by
  refine ⟨?_, ?_, ?_, ?_⟩ <;>
    norm_num [evaluateMetrics, specScore, clamp, mBoundary, mNegTurn, mathRound,
      min_def, max_def]

/-- Claim C2 (amended): the message chosen by `evaluateMetrics` follows a
SIX-entry ordered decision table, top-to-bottom, first match wins:
score > 85 → powerful; else score > 70 → rotate more; else
maxShoulderTurn < 50 (a raw-degree threshold, not a normalized ratio) →
insufficient rotation; else distanceFromCore < 40 → extend-arm (a branch
absent from the spec's table); else speed ratio < 0.4 → too slow; else
the rhythm-uneven default. -/
theorem claim_C2 :
    ∀ m : Metrics, (evaluateMetrics m).feedback =
      (if 85 < (evaluateMetrics m).score then msgPowerful
       else if 70 < (evaluateMetrics m).score then msgRotateMore
       else if m.maxShoulderTurn < 50 then msgInsufficientRotation
       else if m.contactMetrics.distanceFromCore < 40 then msgExtendArm
       else if m.peakArmSpeed / 100 < 0.4 then msgTooSlow
       else msgRhythmUneven) :=
  fun _ => rfl

/-- Claim C2 counterexample: on {55, 40, {10,·,·}, 0} (score 32) the code
returns the extend-arm message via a distance branch that does not exist in
the spec's five-entry table, while the spec's table (read over the code's
score and normalization) selects the insufficient-rotation message; the two
messages differ.  So the decision table is not the five-entry one claimed. -/
theorem claim_C2_counterexample :
    (evaluateMetrics mTable).feedback = msgExtendArm
    ∧ specFiveEntryFeedback mTable = msgInsufficientRotation
    ∧ msgExtendArm ≠ msgInsufficientRotation := by
  refine ⟨?_, ?_, by decide⟩ <;>
    norm_num [evaluateMetrics, specFiveEntryFeedback, mTable, mathRound, min_def]

end TennisCoach
